import Mathlib

/-!
Verification development for the dynamic-bonding-curve SDK core
(packages/dynamic-bonding-curve).

Embedding conventions:
* `BN` (bn.js arbitrary-size integers) is embedded as `Int`.  `BN.div`,
  `BN.divn` and `BN.divmod` truncate toward zero and are embedded as
  `Int.tdiv` / `Int.tmod`; right shifts and `Decimal.floor` round toward
  negative infinity and are embedded as `Int.fdiv` / `Int.floor`.
* `Decimal` (decimal.js, used by the source for arbitrary-precision
  intermediate arithmetic, spec section 4.1) is embedded as `Rat`, with
  `Decimal.sqrt x` modelled as the exact real square root; where the source
  floors a square root scaled by a power of two the embedding computes the
  corresponding integer square root (`Nat.sqrt`), which is exactly the floor
  of the real value.
* TypeScript functions that `throw` are embedded as `Except String`, with the
  thrown message as the payload.
-/

set_option maxRecDepth 16000

deriving instance DecidableEq for Except

namespace DBC

/-! ## Data model (types.ts, re-exported by services/pool.ts) -/

inductive ActivationType where
  | Slot
  | Timestamp
deriving DecidableEq, Repr

inductive MigrationOption where
  | MET_DAMM
  | MET_DAMM_V2
  | NO_MIGRATION
deriving DecidableEq, Repr

inductive BaseFeeMode where
  | FeeSchedulerLinear
  | FeeSchedulerExponential
  | RateLimiter
deriving DecidableEq, Repr

inductive MigrationFeeOption where
  | FixedBps25
  | FixedBps30
  | FixedBps100
  | FixedBps200
  | FixedBps400
  | FixedBps600
  | Customizable
deriving DecidableEq, Repr

inductive Rounding where
  | Up
  | Down
deriving DecidableEq, Repr

/-- One `(upperSqrtPrice, liquidity)` curve segment. -/
structure LiquidityDistributionParameters where
  sqrtPrice : Int
  liquidity : Int
deriving DecidableEq, Repr

structure LockedVestingParameters where
  amountPerPeriod : Int
  cliffDurationFromMigrationTime : Int
  frequency : Int
  numberOfPeriod : Int
  cliffUnlockAmount : Int
deriving DecidableEq, Repr

/-- Tagged base-fee parameter record (types.ts `BaseFee`). -/
structure BaseFee where
  cliffFeeNumerator : Int
  firstFactor : Int
  secondFactor : Int
  thirdFactor : Int
  baseFeeMode : BaseFeeMode
deriving DecidableEq, Repr

structure DynamicFeeParameters where
  binStep : Int
  binStepU128 : Int
  filterPeriod : Int
  decayPeriod : Int
  reductionFactor : Int
  maxVolatilityAccumulator : Int
  variableFeeControl : Int
deriving DecidableEq, Repr

/-- Migrated-pool fee split (types.ts `MigratedPoolFee`); the enum-typed fields
are embedded as their numeric values. -/
structure MigratedPoolFee where
  collectFeeMode : Int
  dynamicFee : Int
  poolFeeBps : Int
deriving DecidableEq, Repr

/-! ## Constants (constants.ts) -/

def MIN_SQRT_PRICE : Int := 4295048016
def MAX_SQRT_PRICE : Int := 79226673521066979257578248091
def ONE_Q64 : Int := 2 ^ 64
def FEE_DENOMINATOR : Int := 1000000000
def MAX_FEE_BPS : Int := 9900
def MIN_FEE_NUMERATOR : Int := 2500000
def MAX_FEE_NUMERATOR : Int := 990000000
def BASIS_POINT_MAX : Int := 10000
def SWAP_BUFFER_PERCENTAGE : Int := 25
def MAX_RATE_LIMITER_DURATION_IN_SECONDS : Int := 43200
def MAX_RATE_LIMITER_DURATION_IN_SLOTS : Int := 108000
def DYNAMIC_FEE_FILTER_PERIOD_DEFAULT : Int := 10
def DYNAMIC_FEE_DECAY_PERIOD_DEFAULT : Int := 120
def DYNAMIC_FEE_REDUCTION_FACTOR_DEFAULT : Int := 5000
def BIN_STEP_BPS_DEFAULT : Int := 1
def BIN_STEP_BPS_U128_DEFAULT : Int := 1844674407370955
def MAX_PRICE_CHANGE_BPS_DEFAULT : Int := 1500

/-! ## Helpers missing from the provided sources (helpers/utils.ts) -/

/-- Modelled from the spec: `helpers/utils.ts` is not among the provided
sources.  `bpsToFeeNumerator` converts basis points into a fee numerator over
the protocol-wide fixed denominator (spec section 3: a fee is a fraction of a
fixed denominator; `BASIS_POINT_MAX` basis points correspond to the whole
denominator).  `BN` division truncates toward zero. -/
def bpsToFeeNumerator (bps : Int) : Int :=
  Int.tdiv (bps * FEE_DENOMINATOR) BASIS_POINT_MAX

/-- Modelled from the spec: `helpers/utils.ts` is not among the provided
sources.  `fromDecimalToBN` truncates an arbitrary-precision decimal to an
integer at the final step (spec section 4.1), rounding down. -/
def fromDecimalToBN (value : Rat) : Int := Int.floor value

/-- Modelled from the spec: `helpers/utils.ts` is not among the provided
sources.  `convertDecimalToBN` is the same final-step truncation used by the
liquidity-weights builder. -/
def convertDecimalToBN (value : Rat) : Int := Int.floor value

/-- Modelled from the spec: `helpers/utils.ts` is not among the provided
sources.  `convertToLamports` scales a token amount by the token decimal and
truncates to integer lamports. -/
def convertToLamports (amount : Rat) (tokenDecimal : Nat) : Int :=
  fromDecimalToBN (amount * (10 : Rat) ^ tokenDecimal)

/-! ## Curve math kernel (math/curve.ts) -/

/-- Modelled from the spec: `math/curve.ts` is not among the provided sources.
Spec section 4.2: `deltaQuote(lower, upper, liquidity, roundUp)` is
`liquidity * (upper - lower)` with the Q64.64 product scaled down by `2 ^ 128`
and the rounding direction explicit. -/
def getDeltaAmountQuoteUnsigned (lowerSqrtPrice upperSqrtPrice liquidity : Int)
    (rounding : Rounding) : Int :=
  let prod := liquidity * (upperSqrtPrice - lowerSqrtPrice)
  match rounding with
  | .Up => Int.fdiv (prod + (2 ^ 128 - 1)) (2 ^ 128)
  | .Down => Int.fdiv prod (2 ^ 128)

/-- Modelled from the spec: `math/curve.ts` is not among the provided sources.
Spec section 4.2: `deltaBase(lower, upper, liquidity, roundUp)` is derived
from `liquidity * (1/lower - 1/upper)`, that is
`liquidity * (upper - lower) / (lower * upper)`, rounding direction explicit. -/
def getDeltaAmountBaseUnsigned (lowerSqrtPrice upperSqrtPrice liquidity : Int)
    (rounding : Rounding) : Int :=
  let numerator := liquidity * (upperSqrtPrice - lowerSqrtPrice)
  let denominator := lowerSqrtPrice * upperSqrtPrice
  match rounding with
  | .Up => Int.fdiv (numerator + (denominator - 1)) denominator
  | .Down => Int.fdiv numerator denominator

/-- Modelled from the spec: `math/curve.ts` is not among the provided sources.
Spec section 4.2: `nextSqrtPriceFromInput` solves the delta relations for the
new price given a known input amount, case-split by input token; for a quote
input the quote delta relation gives `next = start + amountIn * 2^128 / L`
(rounded down), for a base input the base delta relation gives
`next = L * start / (L + amountIn * start)` (rounded up). -/
def getNextSqrtPriceFromInput (sqrtPrice liquidity amountIn : Int)
    (baseForQuote : Bool) : Int :=
  if baseForQuote then
    Int.fdiv (liquidity * sqrtPrice + (liquidity + amountIn * sqrtPrice - 1))
      (liquidity + amountIn * sqrtPrice)
  else
    sqrtPrice + Int.fdiv (amountIn * 2 ^ 128) liquidity

/-- Modelled from the spec: `math/curve.ts` is not among the provided sources.
Spec section 4.2 inverse sizing: the liquidity producing a given base amount
over a price interval, `L = amount * max * min / (max - min)`, rounded down. -/
def getInitialLiquidityFromDeltaBase (baseAmount sqrtMaxPrice sqrtPrice : Int) : Int :=
  Int.fdiv (baseAmount * sqrtMaxPrice * sqrtPrice) (sqrtMaxPrice - sqrtPrice)

/-- Modelled from the spec: `math/curve.ts` is not among the provided sources.
Spec section 4.2 inverse sizing: the liquidity producing a given quote amount
over a price interval, `L = amount * 2^128 / (max - min)`, rounded down. -/
def getInitialLiquidityFromDeltaQuote (quoteAmount sqrtMinPrice sqrtMaxPrice : Int) : Int :=
  Int.fdiv (quoteAmount * 2 ^ 128) (sqrtMaxPrice - sqrtMinPrice)

/-! ## helpers/common.ts -/

/-- `checkRateLimiterApplied` (helpers/common.ts). -/
def checkRateLimiterApplied (baseFeeMode : BaseFeeMode) (swapBaseForQuote : Bool)
    (currentPoint activationPoint maxLimiterDuration : Int) : Bool :=
  baseFeeMode == .RateLimiter &&
    !swapBaseForQuote &&
    decide (activationPoint ≤ currentPoint) &&
    decide (currentPoint ≤ activationPoint + maxLimiterDuration)

/-- `getMigratedPoolFeeParams` (helpers/common.ts).  The optional
`migratedPoolFee` argument is embedded as `Option`; the customizable branch
returns it unchanged (including `none` when the caller omitted it). -/
def getMigratedPoolFeeParams (migrationOption : MigrationOption)
    (migrationFeeOption : MigrationFeeOption)
    (migratedPoolFee : Option MigratedPoolFee) : Option MigratedPoolFee :=
  let defaultFeeParams : MigratedPoolFee := ⟨0, 0, 0⟩
  match migrationOption with
  | .MET_DAMM => some defaultFeeParams
  | .MET_DAMM_V2 =>
      if migrationFeeOption = .Customizable then migratedPoolFee
      else some defaultFeeParams
  | .NO_MIGRATION => some defaultFeeParams

/-- Floor of `sqrt x * 2^64`, the Q64.64 encoding the source obtains with
`Decimal.sqrt(x).mul(Decimal.pow(2, 64)).floor()`.  The arbitrary-precision
square root is modelled as the exact real square root: flooring
`sqrt x * 2^64` equals the integer square root of the floor of `x * 2^128`. -/
def sqrtMulQ64 (x : Rat) : Int :=
  (Nat.sqrt (Int.floor (x * 2 ^ 128)).toNat : Int)

/-- `getSqrtPriceFromPrice` (helpers/common.ts): divide the price by
`10 ^ (tokenADecimal - tokenBDecimal)`, take the square root and scale into
Q64.64, flooring at the end. -/
def getSqrtPriceFromPrice (price : Rat) (tokenADecimal tokenBDecimal : Int) : Int :=
  let adjustedByDecimals := price / (10 : Rat) ^ (tokenADecimal - tokenBDecimal)
  sqrtMulQ64 adjustedByDecimals

/-- `getPriceFromSqrtPrice` (helpers/common.ts):
`sqrtPrice^2 / 2^128 * 10 ^ (tokenBaseDecimal - tokenQuoteDecimal)`. -/
def getPriceFromSqrtPrice (sqrtPrice : Int) (tokenBaseDecimal tokenQuoteDecimal : Int) : Rat :=
  let sqrtPriceDecimal : Rat := (sqrtPrice : Rat)
  let lamportPrice := sqrtPriceDecimal * sqrtPriceDecimal / 2 ^ 128
  lamportPrice * (10 : Rat) ^ (tokenBaseDecimal - tokenQuoteDecimal)

/-- Solved first-segment liquidity `l0` of `getTwoCurve` (helpers/common.ts):
`(c1 * b2 - c2 * b1) / (a1 * b2 - a2 * b1)`. -/
def twoCurveL0 (migrationSqrtPrice midSqrtPrice initialSqrtPrice
    swapAmount migrationQuoteThreshold : Int) : Rat :=
  let p0 : Rat := (initialSqrtPrice : Rat)
  let p1 : Rat := (midSqrtPrice : Rat)
  let p2 : Rat := (migrationSqrtPrice : Rat)
  let a1 := 1 / p0 - 1 / p1
  let b1 := 1 / p1 - 1 / p2
  let c1 : Rat := (swapAmount : Rat)
  let a2 := p1 - p0
  let b2 := p2 - p1
  let c2 : Rat := (migrationQuoteThreshold : Rat) * 2 ^ 128
  (c1 * b2 - c2 * b1) / (a1 * b2 - a2 * b1)

/-- Solved second-segment liquidity `l1` of `getTwoCurve` (helpers/common.ts):
`(c1 * a2 - c2 * a1) / (b1 * a2 - b2 * a1)`. -/
def twoCurveL1 (migrationSqrtPrice midSqrtPrice initialSqrtPrice
    swapAmount migrationQuoteThreshold : Int) : Rat :=
  let p0 : Rat := (initialSqrtPrice : Rat)
  let p1 : Rat := (midSqrtPrice : Rat)
  let p2 : Rat := (migrationSqrtPrice : Rat)
  let a1 := 1 / p0 - 1 / p1
  let b1 := 1 / p1 - 1 / p2
  let c1 : Rat := (swapAmount : Rat)
  let a2 := p1 - p0
  let b2 := p2 - p1
  let c2 : Rat := (migrationQuoteThreshold : Rat) * 2 ^ 128
  (c1 * a2 - c2 * a1) / (b1 * a2 - b2 * a1)

/-- `getTotalVestingAmount` (helpers/common.ts):
`cliffUnlockAmount + amountPerPeriod * numberOfPeriod`. -/
def getTotalVestingAmount (lockedVesting : LockedVestingParameters) : Int :=
  lockedVesting.cliffUnlockAmount +
    lockedVesting.amountPerPeriod * lockedVesting.numberOfPeriod

/-- Inner loop of `getBaseTokenForSwap` (helpers/common.ts): accumulate the
upward-rounded base delta of each segment, consuming the interval up to the
migration price inside the first segment whose upper sqrt price exceeds it. -/
def baseTokenLoop (sqrtMigrationPrice lowerSqrtPrice : Int) :
    List LiquidityDistributionParameters → Int
  | [] => 0
  | c :: rest =>
      if c.sqrtPrice > sqrtMigrationPrice then
        getDeltaAmountBaseUnsigned lowerSqrtPrice sqrtMigrationPrice c.liquidity .Up
      else
        getDeltaAmountBaseUnsigned lowerSqrtPrice c.sqrtPrice c.liquidity .Up +
          baseTokenLoop sqrtMigrationPrice c.sqrtPrice rest

/-- `getBaseTokenForSwap` (helpers/common.ts). -/
def getBaseTokenForSwap (sqrtStartPrice sqrtMigrationPrice : Int)
    (curve : List LiquidityDistributionParameters) : Int :=
  baseTokenLoop sqrtMigrationPrice sqrtStartPrice curve

/-- Tail loop of `getMigrationThresholdPrice` (helpers/common.ts), walking the
remaining segments with the quote amount still to absorb; an exhausted curve
with a non-zero remainder is the `Not enough liquidity` failure. -/
def migrationThresholdLoop (amountLeft nextSqrtPrice : Int) :
    List LiquidityDistributionParameters → Except String Int
  | [] =>
      if amountLeft = 0 then .ok nextSqrtPrice
      else .error "Not enough liquidity"
  | c :: rest =>
      let maxAmount :=
        getDeltaAmountQuoteUnsigned nextSqrtPrice c.sqrtPrice c.liquidity .Up
      if maxAmount > amountLeft then
        .ok (getNextSqrtPriceFromInput nextSqrtPrice c.liquidity amountLeft false)
      else migrationThresholdLoop (amountLeft - maxAmount) c.sqrtPrice rest

/-- `getMigrationThresholdPrice` (helpers/common.ts). -/
def getMigrationThresholdPrice (migrationThreshold sqrtStartPrice : Int)
    (curve : List LiquidityDistributionParameters) : Except String Int :=
  match curve with
  | [] => .error "Curve is empty"
  | c :: rest =>
      let totalAmount :=
        getDeltaAmountQuoteUnsigned sqrtStartPrice c.sqrtPrice c.liquidity .Up
      if totalAmount > migrationThreshold then
        .ok (getNextSqrtPriceFromInput sqrtStartPrice c.liquidity migrationThreshold false)
      else migrationThresholdLoop (migrationThreshold - totalAmount) c.sqrtPrice rest

/-- `getSwapAmountWithBuffer` (helpers/common.ts): add a 25% buffer, capped by
the base amount available on the whole curve up to `MAX_SQRT_PRICE`. -/
def getSwapAmountWithBuffer (swapBaseAmount sqrtStartPrice : Int)
    (curve : List LiquidityDistributionParameters) : Int :=
  let swapAmountBuffer :=
    swapBaseAmount + Int.tdiv (swapBaseAmount * SWAP_BUFFER_PERCENTAGE) 100
  min swapAmountBuffer (getBaseTokenForSwap sqrtStartPrice MAX_SQRT_PRICE curve)

/-- `getMigrationQuoteAmountFromMigrationQuoteThreshold` (helpers/common.ts):
`threshold * (100 - feePercent) / 100`. -/
def getMigrationQuoteAmountFromMigrationQuoteThreshold
    (migrationQuoteThreshold migrationFeePercent : Rat) : Rat :=
  migrationQuoteThreshold * (100 - migrationFeePercent) / 100

/-- `getMigrationBaseToken` (helpers/common.ts).  The `MET_DAMM` branch
divides the quote amount shifted by 128 bits by the squared migration price,
rounding up by the `divmod` remainder test. -/
def getMigrationBaseToken (migrationQuoteAmount sqrtMigrationPrice : Int)
    (migrationOption : MigrationOption) : Int :=
  match migrationOption with
  | .MET_DAMM =>
      let price := sqrtMigrationPrice * sqrtMigrationPrice
      let quote := migrationQuoteAmount * 2 ^ 128
      let baseDiv := Int.tdiv quote price
      if Int.tmod quote price ≠ 0 then baseDiv + 1 else baseDiv
  | .MET_DAMM_V2 =>
      let liquidity := getInitialLiquidityFromDeltaQuote migrationQuoteAmount
        MIN_SQRT_PRICE sqrtMigrationPrice
      getDeltaAmountBaseUnsigned sqrtMigrationPrice MAX_SQRT_PRICE liquidity .Up
  | .NO_MIGRATION =>
      let liquidity := getInitialLiquidityFromDeltaQuote migrationQuoteAmount
        MIN_SQRT_PRICE sqrtMigrationPrice
      getDeltaAmountBaseUnsigned sqrtMigrationPrice MAX_SQRT_PRICE liquidity .Up

/-- `getTotalSupplyFromCurve` (helpers/common.ts): migration price, buffered
swap amount, migration base amount, vesting and leftover, summed. -/
def getTotalSupplyFromCurve (migrationQuoteThreshold sqrtStartPrice : Int)
    (curve : List LiquidityDistributionParameters)
    (lockedVesting : LockedVestingParameters) (migrationOption : MigrationOption)
    (leftover : Int) (migrationFeePercent : Rat) : Except String Int :=
  match getMigrationThresholdPrice migrationQuoteThreshold sqrtStartPrice curve with
  | .error e => .error e
  | .ok sqrtMigrationPrice =>
      let swapBaseAmount := getBaseTokenForSwap sqrtStartPrice sqrtMigrationPrice curve
      let swapBaseAmountBuffer :=
        getSwapAmountWithBuffer swapBaseAmount sqrtStartPrice curve
      let migrationQuoteAmount := getMigrationQuoteAmountFromMigrationQuoteThreshold
        (migrationQuoteThreshold : Rat) migrationFeePercent
      let migrationBaseAmount := getMigrationBaseToken
        (fromDecimalToBN migrationQuoteAmount) sqrtMigrationPrice migrationOption
      let totalVestingAmount := getTotalVestingAmount lockedVesting
      .ok (swapBaseAmountBuffer + migrationBaseAmount + totalVestingAmount + leftover)

/-- Tail of `buildCurve` (services/curve.ts, from the `getTotalSupplyFromCurve`
call onward): reconstruct the total supply of the candidate curve, solve the
remaining amount into a last segment reaching `MAX_SQRT_PRICE` via
`getInitialLiquidityFromDeltaBase`, append it when its liquidity is non-zero,
and return the start price and curve of the configuration.  No
leftover-tolerance check is performed on this path. -/
def buildCurveFinalize (totalSupply migrationQuoteThresholdInLamport
    sqrtStartPrice : Int) (curve : List LiquidityDistributionParameters)
    (lockedVesting : LockedVestingParameters) (migrationOption : MigrationOption)
    (totalLeftover : Int) (migrationFeePercent : Rat) (migrateSqrtPrice : Int) :
    Except String (Int × List LiquidityDistributionParameters) :=
  match getTotalSupplyFromCurve migrationQuoteThresholdInLamport sqrtStartPrice
      curve lockedVesting migrationOption totalLeftover migrationFeePercent with
  | .error e => .error e
  | .ok totalDynamicSupply =>
      let remainingAmount := totalSupply - totalDynamicSupply
      let lastLiquidity := getInitialLiquidityFromDeltaBase remainingAmount
        MAX_SQRT_PRICE migrateSqrtPrice
      if lastLiquidity = 0 then .ok (sqrtStartPrice, curve)
      else .ok (sqrtStartPrice, curve ++ [⟨MAX_SQRT_PRICE, lastLiquidity⟩])

/-- Tail of `buildCurveWithTwoSegments` (services/curve.ts, from the
`getTotalSupplyFromCurve` call onward): when the reconstructed supply exceeds
the declared total supply, the excess must be strictly below the declared
leftover, otherwise the build fails; the configuration keeps the candidate
curve. -/
def buildCurveWithTwoSegmentsFinalize (totalSupply migrationQuoteThresholdInLamport
    sqrtStartPrice : Int) (curve : List LiquidityDistributionParameters)
    (lockedVesting : LockedVestingParameters) (migrationOption : MigrationOption)
    (totalLeftover : Int) (migrationFeePercent : Rat) :
    Except String (List LiquidityDistributionParameters) :=
  match getTotalSupplyFromCurve migrationQuoteThresholdInLamport sqrtStartPrice
      curve lockedVesting migrationOption totalLeftover migrationFeePercent with
  | .error e => .error e
  | .ok totalDynamicSupply =>
      if totalDynamicSupply > totalSupply then
        if ¬ (totalDynamicSupply - totalSupply < totalLeftover) then
          .error "leftOverDelta must be less than totalLeftover"
        else .ok curve
      else .ok curve

/-- Tail of `buildCurveWithMidPrice` (services/curve.ts): the same
leftover-tolerance verification pass as the two-segments builder. -/
def buildCurveWithMidPriceFinalize (totalSupply migrationQuoteThresholdInLamport
    sqrtStartPrice : Int) (curve : List LiquidityDistributionParameters)
    (lockedVesting : LockedVestingParameters) (migrationOption : MigrationOption)
    (totalLeftover : Int) (migrationFeePercent : Rat) :
    Except String (List LiquidityDistributionParameters) :=
  match getTotalSupplyFromCurve migrationQuoteThresholdInLamport sqrtStartPrice
      curve lockedVesting migrationOption totalLeftover migrationFeePercent with
  | .error e => .error e
  | .ok totalDynamicSupply =>
      if totalDynamicSupply > totalSupply then
        if ¬ (totalDynamicSupply - totalSupply < totalLeftover) then
          .error "leftOverDelta must be less than totalLeftover"
        else .ok curve
      else .ok curve

/-- Tail of `buildCurveWithLiquidityWeights` (services/curve.ts): the same
leftover-tolerance verification pass, with `pMin` as the start price. -/
def buildCurveWithLiquidityWeightsFinalize (totalSupply
    migrationQuoteThresholdInLamport pMin : Int)
    (curve : List LiquidityDistributionParameters)
    (lockedVesting : LockedVestingParameters) (migrationOption : MigrationOption)
    (totalLeftover : Int) (migrationFeePercent : Rat) :
    Except String (List LiquidityDistributionParameters) :=
  match getTotalSupplyFromCurve migrationQuoteThresholdInLamport pMin
      curve lockedVesting migrationOption totalLeftover migrationFeePercent with
  | .error e => .error e
  | .ok totalDynamicSupply =>
      if totalDynamicSupply > totalSupply then
        if ¬ (totalDynamicSupply - totalSupply < totalLeftover) then
          .error "leftOverDelta must be less than totalLeftover"
        else .ok curve
      else .ok curve

structure TwoCurveResult where
  isOk : Bool
  sqrtStartPrice : Int
  curve : List LiquidityDistributionParameters
deriving DecidableEq, Repr

/-- `getTwoCurve` (helpers/common.ts): solve the 2x2 linear system for the two
segment liquidities; a negative solution is rejected with an empty curve. -/
def getTwoCurve (migrationSqrtPrice midSqrtPrice initialSqrtPrice
    swapAmount migrationQuoteThreshold : Int) : TwoCurveResult :=
  let l0 := twoCurveL0 migrationSqrtPrice midSqrtPrice initialSqrtPrice
    swapAmount migrationQuoteThreshold
  let l1 := twoCurveL1 migrationSqrtPrice midSqrtPrice initialSqrtPrice
    swapAmount migrationQuoteThreshold
  if l0 < 0 ∨ l1 < 0 then
    { isOk := false, sqrtStartPrice := 0, curve := [] }
  else
    { isOk := true
      sqrtStartPrice := initialSqrtPrice
      curve := [⟨midSqrtPrice, Int.floor l0⟩, ⟨migrationSqrtPrice, Int.floor l1⟩] }

/-- Candidate loop of `buildCurveWithTwoSegments` (services/curve.ts): starting
from `sqrtStartPrice = 0` and an empty curve, try the candidate mid prices in
order and adopt the first `getTwoCurve` result whose `isOk` holds. -/
def twoSegmentsCandidateLoop (migrateSqrtPrice initialSqrtPrice swapAmount
    migrationQuoteThresholdInLamport : Int) :
    List Int → Int × List LiquidityDistributionParameters
  | [] => (0, [])
  | midPrice :: rest =>
      let result := getTwoCurve migrateSqrtPrice midPrice initialSqrtPrice
        swapAmount migrationQuoteThresholdInLamport
      if result.isOk then (result.sqrtStartPrice, result.curve)
      else twoSegmentsCandidateLoop migrateSqrtPrice initialSqrtPrice swapAmount
        migrationQuoteThresholdInLamport rest

/-- `getFeeSchedulerParams` (helpers/common.ts).  The exponential branch
derives its reduction factor from a binary floating-point `Math.pow`; that
already-truncated integer is abstracted as the argument `expReductionFactor`
(it never feeds the cliff fee numerator).  The `BN` constructor applied to the
JavaScript quotient `totalDuration / numberOfPeriod` truncates toward zero. -/
def getFeeSchedulerParams (startingBaseFeeBps endingBaseFeeBps : Int)
    (baseFeeMode : BaseFeeMode) (numberOfPeriod totalDuration : Int)
    (expReductionFactor : Int) : Except String BaseFee :=
  if startingBaseFeeBps = endingBaseFeeBps then
    if numberOfPeriod ≠ 0 ∨ totalDuration ≠ 0 then
      .error "numberOfPeriod and totalDuration must both be zero"
    else
      .ok { cliffFeeNumerator := bpsToFeeNumerator startingBaseFeeBps
            firstFactor := 0, secondFactor := 0, thirdFactor := 0
            baseFeeMode := .FeeSchedulerLinear }
  else if numberOfPeriod ≤ 0 then
    .error "Total periods must be greater than zero"
  else if startingBaseFeeBps > MAX_FEE_BPS then
    .error "startingBaseFeeBps exceeds maximum allowed value"
  else if endingBaseFeeBps > startingBaseFeeBps then
    .error "endingBaseFeeBps bps must be less than or equal to startingBaseFeeBps bps"
  else if numberOfPeriod = 0 ∨ totalDuration = 0 then
    .error "numberOfPeriod and totalDuration must both greater than zero"
  else
    let maxBaseFeeNumerator := bpsToFeeNumerator startingBaseFeeBps
    let minBaseFeeNumerator := bpsToFeeNumerator endingBaseFeeBps
    let periodFrequency := Int.tdiv totalDuration numberOfPeriod
    let reductionFactor :=
      match baseFeeMode with
      | .FeeSchedulerLinear =>
          Int.tdiv (maxBaseFeeNumerator - minBaseFeeNumerator) numberOfPeriod
      | _ => expReductionFactor
    .ok { cliffFeeNumerator := maxBaseFeeNumerator
          firstFactor := numberOfPeriod, secondFactor := periodFrequency
          thirdFactor := reductionFactor, baseFeeMode := baseFeeMode }

/-- `getRateLimiterParams` (helpers/common.ts). -/
def getRateLimiterParams (baseFeeBps feeIncrementBps : Int) (referenceAmount : Rat)
    (maxLimiterDuration : Int) (tokenQuoteDecimal : Nat)
    (activationType : ActivationType) : Except String BaseFee :=
  let cliffFeeNumerator := bpsToFeeNumerator baseFeeBps
  let feeIncrementNumerator := bpsToFeeNumerator feeIncrementBps
  if baseFeeBps ≤ 0 ∨ feeIncrementBps ≤ 0 ∨ referenceAmount ≤ 0 ∨ maxLimiterDuration ≤ 0 then
    .error "All rate limiter parameters must be greater than zero"
  else if baseFeeBps > MAX_FEE_BPS then
    .error "Base fee exceeds maximum allowed value"
  else if feeIncrementBps > MAX_FEE_BPS then
    .error "Fee increment exceeds maximum allowed value"
  else if feeIncrementNumerator ≥ FEE_DENOMINATOR then
    .error "Fee increment numerator must be less than FEE_DENOMINATOR"
  else
    let deltaNumerator := MAX_FEE_NUMERATOR - cliffFeeNumerator
    let maxIndex := Int.tdiv deltaNumerator feeIncrementNumerator
    if maxIndex < 1 then
      .error "Fee increment is too large for the given base fee"
    else if cliffFeeNumerator < MIN_FEE_NUMERATOR ∨ cliffFeeNumerator > MAX_FEE_NUMERATOR then
      .error "Base fee must be between 0.25% and 99%"
    else
      let maxDuration :=
        match activationType with
        | .Slot => MAX_RATE_LIMITER_DURATION_IN_SLOTS
        | .Timestamp => MAX_RATE_LIMITER_DURATION_IN_SECONDS
      if maxLimiterDuration > maxDuration then
        .error "Max duration exceeds maximum allowed value"
      else
        .ok { cliffFeeNumerator := cliffFeeNumerator
              firstFactor := feeIncrementBps
              secondFactor := maxLimiterDuration
              thirdFactor := convertToLamports referenceAmount tokenQuoteDecimal
              baseFeeMode := .RateLimiter }

structure RateLimiterParamInput where
  baseFeeBps : Int
  feeIncrementBps : Int
  referenceAmount : Rat
  maxLimiterDuration : Int
deriving DecidableEq, Repr

structure FeeSchedulerParamInput where
  startingFeeBps : Int
  endingFeeBps : Int
  numberOfPeriod : Int
  totalDuration : Int
deriving DecidableEq, Repr

/-- Input record of `getBaseFeeParams` (helpers/common.ts); the two optional
variant-specific payloads are embedded as `Option`. -/
structure BaseFeeParamsInput where
  baseFeeMode : BaseFeeMode
  rateLimiterParam : Option RateLimiterParamInput
  feeSchedulerParam : Option FeeSchedulerParamInput
deriving DecidableEq, Repr

/-- `getBaseFeeParams` (helpers/common.ts): dispatch on the base fee mode. -/
def getBaseFeeParams (baseFeeParams : BaseFeeParamsInput) (tokenQuoteDecimal : Nat)
    (activationType : ActivationType) (expReductionFactor : Int) :
    Except String BaseFee :=
  if baseFeeParams.baseFeeMode = .RateLimiter then
    match baseFeeParams.rateLimiterParam with
    | none => .error "Rate limiter parameters are required for RateLimiter mode"
    | some r =>
        getRateLimiterParams r.baseFeeBps r.feeIncrementBps r.referenceAmount
          r.maxLimiterDuration tokenQuoteDecimal activationType
  else
    match baseFeeParams.feeSchedulerParam with
    | none => .error "Fee scheduler parameters are required for FeeScheduler mode"
    | some f =>
        getFeeSchedulerParams f.startingFeeBps f.endingFeeBps
          baseFeeParams.baseFeeMode f.numberOfPeriod f.totalDuration
          expReductionFactor

/-- `getDynamicFeeParams` (helpers/common.ts).  `BN` division by a zero
`squareVfaBin` raises, embedded as an error. -/
def getDynamicFeeParams (baseFeeBps maxPriceChangeBps : Int) :
    Except String DynamicFeeParameters :=
  if maxPriceChangeBps > MAX_PRICE_CHANGE_BPS_DEFAULT then
    .error "maxPriceChangeBps must be less than or equal to the default maximum"
  else
    let priceRq : Rat := (maxPriceChangeBps : Rat) / (BASIS_POINT_MAX : Rat) + 1
    let sqrtPriceRatioQ64 : Int := sqrtMulQ64 priceRq
    let deltaBinId := Int.tdiv (sqrtPriceRatioQ64 - ONE_Q64) BIN_STEP_BPS_U128_DEFAULT * 2
    let maxVolatilityAccumulator := deltaBinId * BASIS_POINT_MAX
    let squareVfaBin := (maxVolatilityAccumulator * BIN_STEP_BPS_DEFAULT) ^ 2
    let baseFeeNumerator := bpsToFeeNumerator baseFeeBps
    let maxDynamicFeeNumerator := Int.tdiv (baseFeeNumerator * 20) 100
    let vFee := maxDynamicFeeNumerator * 100000000000 - 99999999999
    if squareVfaBin = 0 then
      .error "division by zero"
    else
      .ok { binStep := BIN_STEP_BPS_DEFAULT
            binStepU128 := BIN_STEP_BPS_U128_DEFAULT
            filterPeriod := DYNAMIC_FEE_FILTER_PERIOD_DEFAULT
            decayPeriod := DYNAMIC_FEE_DECAY_PERIOD_DEFAULT
            reductionFactor := DYNAMIC_FEE_REDUCTION_FACTOR_DEFAULT
            maxVolatilityAccumulator := maxVolatilityAccumulator
            variableFeeControl := Int.tdiv vFee squareVfaBin }

/-- `getLockedVestingParams` (helpers/common.ts).  The JavaScript number
arguments are integer token amounts here; `Math.floor` of the exact quotient is
the rational floor, and the `BN` constructor applied to
`totalVestingDuration / numberOfVestingPeriod` truncates toward zero. -/
def getLockedVestingParams (totalLockedVestingAmount numberOfVestingPeriod
    cliffUnlockAmount totalVestingDuration cliffDurationFromMigrationTime : Int)
    (tokenBaseDecimal : Nat) : Except String LockedVestingParameters :=
  if totalLockedVestingAmount = 0 then
    .ok { amountPerPeriod := 0, cliffDurationFromMigrationTime := 0
          frequency := 0, numberOfPeriod := 0, cliffUnlockAmount := 0 }
  else if totalLockedVestingAmount = cliffUnlockAmount then
    .ok { amountPerPeriod := convertToLamports 1 tokenBaseDecimal
          cliffDurationFromMigrationTime := cliffDurationFromMigrationTime
          frequency := 1, numberOfPeriod := 1
          cliffUnlockAmount :=
            convertToLamports ((totalLockedVestingAmount : Rat) - 1) tokenBaseDecimal }
  else if numberOfVestingPeriod ≤ 0 then
    .error "Total periods must be greater than zero"
  else if numberOfVestingPeriod = 0 ∨ totalVestingDuration = 0 then
    .error "numberOfPeriod and totalVestingDuration must both be greater than zero"
  else if cliffUnlockAmount > totalLockedVestingAmount then
    .error "Cliff unlock amount cannot be greater than total locked vesting amount"
  else
    let amountPerPeriod : Rat :=
      ((totalLockedVestingAmount : Rat) - (cliffUnlockAmount : Rat)) /
        (numberOfVestingPeriod : Rat)
    let roundedAmountPerPeriod : Int := Int.floor amountPerPeriod
    let totalPeriodicAmount := roundedAmountPerPeriod * numberOfVestingPeriod
    let remainder := totalLockedVestingAmount - (cliffUnlockAmount + totalPeriodicAmount)
    let adjustedCliffUnlockAmount := cliffUnlockAmount + remainder
    let periodFrequency := Int.tdiv totalVestingDuration numberOfVestingPeriod
    .ok { amountPerPeriod :=
            convertToLamports (roundedAmountPerPeriod : Rat) tokenBaseDecimal
          cliffDurationFromMigrationTime := cliffDurationFromMigrationTime
          frequency := periodFrequency
          numberOfPeriod := numberOfVestingPeriod
          cliffUnlockAmount :=
            convertToLamports (adjustedCliffUnlockAmount : Rat) tokenBaseDecimal }

structure Tokenomics where
  bondingCurveSupply : Int
  migrationSupply : Int
  leftoverSupply : Int
  lockedVestingSupply : Int
deriving DecidableEq, Repr

/-- `getTokenomics` (helpers/common.ts).  The source calls `Decimal.sqrt` on
the market-cap quotient; the approximate decimal square root is abstracted as
the function argument `dsqrt`, everything else is transcribed directly. -/
def getTokenomics (dsqrt : Rat → Rat) (initialMarketCap migrationMarketCap : Rat)
    (totalLockedVestingAmount totalLeftover totalTokenSupply : Int) : Tokenomics :=
  let marketCapQuot := initialMarketCap / migrationMarketCap
  let sqrtR := dsqrt marketCapQuot
  let vestingPercentage :=
    (totalLockedVestingAmount : Rat) * 100 / (totalTokenSupply : Rat)
  let leftoverPercentage :=
    (totalLeftover : Rat) * 100 / (totalTokenSupply : Rat)
  let percentageSupplyOnMigration :=
    100 * sqrtR - (vestingPercentage + leftoverPercentage) * sqrtR
  let denominator := 1 + sqrtR
  let migrationSupplyDecimal :=
    percentageSupplyOnMigration / denominator * (totalTokenSupply : Rat) / 100
  let migrationSupply := Int.floor migrationSupplyDecimal
  let bondingCurveSupply :=
    totalTokenSupply - migrationSupply - totalLeftover - totalLockedVestingAmount
  { bondingCurveSupply := bondingCurveSupply
    migrationSupply := migrationSupply
    leftoverSupply := totalLeftover
    lockedVestingSupply := totalLockedVestingAmount }

end DBC

namespace DBC

/-! ## Claim theorems -/

/-- C5: `checkRateLimiterApplied` returns `true` exactly when the base fee
mode is `RateLimiter`, the trade is quote-to-base (`swapBaseForQuote` false),
and the current point lies in the closed interval from the activation point to
the activation point plus the maximum limiter duration. -/
theorem checkRateLimiterApplied_iff (baseFeeMode : BaseFeeMode)
    (swapBaseForQuote : Bool) (currentPoint activationPoint maxLimiterDuration : Int) :
    checkRateLimiterApplied baseFeeMode swapBaseForQuote currentPoint
        activationPoint maxLimiterDuration = true ↔
      baseFeeMode = .RateLimiter ∧ swapBaseForQuote = false ∧
        activationPoint ≤ currentPoint ∧
        currentPoint ≤ activationPoint + maxLimiterDuration := by
  simp [checkRateLimiterApplied, and_assoc]

/-- C2: `getTwoCurve` fails (`isOk` false, empty curve) exactly when at least
one of the two solved liquidity values `l0`, `l1` is negative, and the
candidate loop of `buildCurveWithTwoSegments` adopts the start price and curve
of the first candidate mid price for which `getTwoCurve` succeeds, skipping
every candidate whose solved liquidity is negative. -/
theorem getTwoCurve_candidates (migrationSqrtPrice midSqrtPrice initialSqrtPrice
    swapAmount migrationQuoteThreshold : Int) (rest : List Int) :
    (((getTwoCurve migrationSqrtPrice midSqrtPrice initialSqrtPrice swapAmount
          migrationQuoteThreshold).isOk = false ∧
        (getTwoCurve migrationSqrtPrice midSqrtPrice initialSqrtPrice swapAmount
          migrationQuoteThreshold).curve = []) ↔
      (twoCurveL0 migrationSqrtPrice midSqrtPrice initialSqrtPrice swapAmount
          migrationQuoteThreshold < 0 ∨
        twoCurveL1 migrationSqrtPrice midSqrtPrice initialSqrtPrice swapAmount
          migrationQuoteThreshold < 0)) ∧
    ((getTwoCurve migrationSqrtPrice midSqrtPrice initialSqrtPrice swapAmount
          migrationQuoteThreshold).isOk = true →
      twoSegmentsCandidateLoop migrationSqrtPrice initialSqrtPrice swapAmount
          migrationQuoteThreshold (midSqrtPrice :: rest) =
        ((getTwoCurve migrationSqrtPrice midSqrtPrice initialSqrtPrice swapAmount
            migrationQuoteThreshold).sqrtStartPrice,
          (getTwoCurve migrationSqrtPrice midSqrtPrice initialSqrtPrice swapAmount
            migrationQuoteThreshold).curve)) ∧
    ((getTwoCurve migrationSqrtPrice midSqrtPrice initialSqrtPrice swapAmount
          migrationQuoteThreshold).isOk = false →
      twoSegmentsCandidateLoop migrationSqrtPrice initialSqrtPrice swapAmount
          migrationQuoteThreshold (midSqrtPrice :: rest) =
        twoSegmentsCandidateLoop migrationSqrtPrice initialSqrtPrice swapAmount
          migrationQuoteThreshold rest) := by
  refine ⟨?_, ?_, ?_⟩
  · by_cases hneg : twoCurveL0 migrationSqrtPrice midSqrtPrice initialSqrtPrice
        swapAmount migrationQuoteThreshold < 0 ∨
        twoCurveL1 migrationSqrtPrice midSqrtPrice initialSqrtPrice swapAmount
          migrationQuoteThreshold < 0
    · simp [getTwoCurve, hneg]
    · simp [getTwoCurve, hneg]
  · intro hok
    simp only [twoSegmentsCandidateLoop, hok, if_true]
  · intro hfail
    simp only [twoSegmentsCandidateLoop, hfail, Bool.false_eq_true, if_false]

/-- C2 witness: a concrete instance with `2 < 3 < 4` as square-root prices, a
swap amount between the two feasibility bounds and quote threshold `1`; both
solved liquidity values are non-negative, so `getTwoCurve` succeeds and the
candidate loop adopts this first candidate. -/
theorem getTwoCurve_candidates_witness :
    (getTwoCurve 4 3 2 30000000000000000000000000000000000000 1).isOk = true ∧
      twoSegmentsCandidateLoop 4 2 30000000000000000000000000000000000000 1 [3, 5] =
        ((getTwoCurve 4 3 2 30000000000000000000000000000000000000 1).sqrtStartPrice,
          (getTwoCurve 4 3 2 30000000000000000000000000000000000000 1).curve) := by
  have hok : (getTwoCurve 4 3 2 30000000000000000000000000000000000000 1).isOk = true := by
    norm_num [getTwoCurve, twoCurveL0, twoCurveL1]
  exact ⟨hok, ((getTwoCurve_candidates 4 3 2 30000000000000000000000000000000000000
    1 [5]).2.1) hok⟩

/-- C3: the four supply components returned by `getTokenomics` sum exactly to
the total token supply in integer token units, for every positive total supply
with vesting and leftover amounts not exceeding it (and for every value of the
decimal square-root approximation). -/
theorem getTokenomics_supply_conservation (dsqrt : Rat → Rat)
    (initialMarketCap migrationMarketCap : Rat)
    (totalLockedVestingAmount totalLeftover totalTokenSupply : Int)
    (hpos : 0 < totalTokenSupply)
    (hvest : totalLockedVestingAmount ≤ totalTokenSupply)
    (hleft : totalLeftover ≤ totalTokenSupply) :
    (getTokenomics dsqrt initialMarketCap migrationMarketCap
          totalLockedVestingAmount totalLeftover totalTokenSupply).bondingCurveSupply +
        (getTokenomics dsqrt initialMarketCap migrationMarketCap
          totalLockedVestingAmount totalLeftover totalTokenSupply).migrationSupply +
        (getTokenomics dsqrt initialMarketCap migrationMarketCap
          totalLockedVestingAmount totalLeftover totalTokenSupply).leftoverSupply +
        (getTokenomics dsqrt initialMarketCap migrationMarketCap
          totalLockedVestingAmount totalLeftover totalTokenSupply).lockedVestingSupply =
      totalTokenSupply := by
  simp only [getTokenomics]
  ring

/-- C3 witness: concrete tokenomics split for market caps 30 and 500, vesting
20, leftover 10 and total supply 1000, with the identity square-root stand-in. -/
theorem getTokenomics_supply_conservation_witness :
    (0 : Int) < 1000 ∧ (20 : Int) ≤ 1000 ∧ (10 : Int) ≤ 1000 ∧
      (getTokenomics id 30 500 20 10 1000).bondingCurveSupply +
          (getTokenomics id 30 500 20 10 1000).migrationSupply +
          (getTokenomics id 30 500 20 10 1000).leftoverSupply +
          (getTokenomics id 30 500 20 10 1000).lockedVestingSupply = 1000 :=
  ⟨by norm_num, by norm_num, by norm_num,
    getTokenomics_supply_conservation id 30 500 20 10 1000
      (by norm_num) (by norm_num) (by norm_num)⟩

/-- C6: for every positive price, converting to the Q64.64 square-root price
and back recovers the original price to within one unit in the last place of
the representation: the recovered price never exceeds the original, and the
price encoded by the next representable square-root value strictly exceeds it. -/
theorem price_sqrtPrice_roundTrip (price : Rat)
    (tokenBaseDecimal tokenQuoteDecimal : Int) (hp : 0 < price) :
    getPriceFromSqrtPrice (getSqrtPriceFromPrice price tokenBaseDecimal tokenQuoteDecimal)
        tokenBaseDecimal tokenQuoteDecimal ≤ price ∧
      price < getPriceFromSqrtPrice
        (getSqrtPriceFromPrice price tokenBaseDecimal tokenQuoteDecimal + 1)
        tokenBaseDecimal tokenQuoteDecimal := by
  unfold getPriceFromSqrtPrice getSqrtPriceFromPrice sqrtMulQ64
  set t : Rat := (10 : Rat) ^ (tokenBaseDecimal - tokenQuoteDecimal) with ht
  have ht0 : 0 < t := zpow_pos (by norm_num) _
  have hx0 : 0 < price / t := div_pos hp ht0
  have hy0 : (0 : ℚ) < price / t * 2 ^ 128 := by positivity
  have hf0 : 0 ≤ Int.floor (price / t * 2 ^ 128) := Int.floor_nonneg.mpr hy0.le
  set n : ℕ := Nat.sqrt (Int.floor (price / t * 2 ^ 128)).toNat with hn
  have h1 : (n : ℚ) * n ≤ price / t * 2 ^ 128 := by
    have hs := Nat.sqrt_le' (Int.floor (price / t * 2 ^ 128)).toNat
    zify [Int.toNat_of_nonneg hf0] at hs
    calc (n : ℚ) * n = (((n : ℤ) ^ 2 : ℤ) : ℚ) := by push_cast; ring
      _ ≤ ((Int.floor (price / t * 2 ^ 128) : ℤ) : ℚ) := by exact_mod_cast hs
      _ ≤ price / t * 2 ^ 128 := Int.floor_le _
  have h2 : price / t * 2 ^ 128 < ((n : ℚ) + 1) * ((n : ℚ) + 1) := by
    have hs := Nat.lt_succ_sqrt' (Int.floor (price / t * 2 ^ 128)).toNat
    zify [Int.toNat_of_nonneg hf0] at hs
    have hsz : Int.floor (price / t * 2 ^ 128) + 1 ≤ ((n : ℤ) + 1) ^ 2 := by
      nlinarith [hs]
    calc price / t * 2 ^ 128 < ((Int.floor (price / t * 2 ^ 128) : ℤ) : ℚ) + 1 :=
        Int.lt_floor_add_one _
      _ ≤ ((((n : ℤ) + 1) ^ 2 : ℤ) : ℚ) := by exact_mod_cast hsz
      _ = ((n : ℚ) + 1) * ((n : ℚ) + 1) := by push_cast; ring
  have hprice : price = price / t * t := (div_mul_cancel₀ price ht0.ne').symm
  constructor
  · have hstep : ((n : ℚ) * n / 2 ^ 128) ≤ price / t := by
      rw [div_le_iff (by positivity : (0 : ℚ) < 2 ^ 128)]
      exact h1
    calc ((n : ℤ) : ℚ) * ((n : ℤ) : ℚ) / 2 ^ 128 * t
        = ((n : ℚ) * n / 2 ^ 128) * t := by push_cast; ring
      _ ≤ (price / t) * t := mul_le_mul_of_nonneg_right hstep ht0.le
      _ = price := hprice.symm
  · have hstep : price / t < ((n : ℚ) + 1) * ((n : ℚ) + 1) / 2 ^ 128 := by
      rw [lt_div_iff (by positivity : (0 : ℚ) < 2 ^ 128)]
      exact h2
    calc price = (price / t) * t := hprice
      _ < (((n : ℚ) + 1) * ((n : ℚ) + 1) / 2 ^ 128) * t :=
        mul_lt_mul_of_pos_right hstep ht0
      _ = (((n : ℤ) + 1 : ℤ) : ℚ) * (((n : ℤ) + 1 : ℤ) : ℚ) / 2 ^ 128 * t := by
        push_cast; ring

/-- C6 witness: round trip at price 3 with base decimal 6 and quote decimal 9. -/
theorem price_sqrtPrice_roundTrip_witness :
    (0 : ℚ) < 3 ∧
      (getPriceFromSqrtPrice (getSqrtPriceFromPrice 3 6 9) 6 9 ≤ 3 ∧
        (3 : ℚ) < getPriceFromSqrtPrice (getSqrtPriceFromPrice 3 6 9 + 1) 6 9) :=
  ⟨by norm_num, price_sqrtPrice_roundTrip 3 6 9 (by norm_num)⟩

/-- Basis points convert to a fee numerator by an exact scaling: dividing
`bps * FEE_DENOMINATOR` by `BASIS_POINT_MAX` leaves no remainder. -/
theorem bpsToFeeNumerator_eq (bps : Int) : bpsToFeeNumerator bps = bps * 100000 := by
  unfold bpsToFeeNumerator FEE_DENOMINATOR BASIS_POINT_MAX
  rw [show bps * 1000000000 = bps * 100000 * 10000 by ring]
  exact Int.mul_tdiv_cancel _ (by norm_num)

/-- Integer token amounts convert to lamports without truncation loss. -/
theorem convertToLamports_intCast (x : Int) (d : Nat) :
    convertToLamports (x : Rat) d = x * 10 ^ d := by
  unfold convertToLamports fromDecimalToBN
  have hc : ((x : ℚ) * (10 : ℚ) ^ d) = ((x * 10 ^ d : ℤ) : ℚ) := by push_cast; ring
  rw [hc, Int.floor_intCast]

/-- A successful `getRateLimiterParams` result has its cliff fee numerator
within the protocol bounds (the source checks exactly this and raises
otherwise). -/
theorem getRateLimiterParams_ok_bounds (baseFeeBps feeIncrementBps : Int)
    (referenceAmount : Rat) (maxLimiterDuration : Int) (tokenQuoteDecimal : Nat)
    (activationType : ActivationType) (bf : BaseFee)
    (h : getRateLimiterParams baseFeeBps feeIncrementBps referenceAmount
      maxLimiterDuration tokenQuoteDecimal activationType = .ok bf) :
    MIN_FEE_NUMERATOR ≤ bf.cliffFeeNumerator ∧
      bf.cliffFeeNumerator ≤ MAX_FEE_NUMERATOR := by
  simp only [getRateLimiterParams] at h
  split_ifs at h with h1 h2 h3 h4 h5 h6 h7
  all_goals simp only [Except.ok.injEq] at h
  subst h
  push_neg at h6
  exact ⟨h6.1, h6.2⟩

/-- A successful `getFeeSchedulerParams` result with distinct starting and
ending fees has its cliff fee numerator bounded by `MAX_FEE_NUMERATOR`, via
the `MAX_FEE_BPS` check on the starting fee. -/
theorem getFeeSchedulerParams_ok_le_max (startingBaseFeeBps endingBaseFeeBps : Int)
    (baseFeeMode : BaseFeeMode) (numberOfPeriod totalDuration expReductionFactor : Int)
    (bf : BaseFee) (hne : startingBaseFeeBps ≠ endingBaseFeeBps)
    (h : getFeeSchedulerParams startingBaseFeeBps endingBaseFeeBps baseFeeMode
      numberOfPeriod totalDuration expReductionFactor = .ok bf) :
    bf.cliffFeeNumerator ≤ MAX_FEE_NUMERATOR := by
  simp only [getFeeSchedulerParams] at h
  rw [if_neg hne] at h
  split_ifs at h with h1 h2 h3 h4
  all_goals simp only [Except.ok.injEq] at h
  subst h
  simp only [bpsToFeeNumerator_eq, MAX_FEE_NUMERATOR]
  simp only [MAX_FEE_BPS, not_lt] at h2
  omega

/-- C4 counterexample: the flat-fee branch of the scheduler performs no bounds
check at all; a zero-bps flat fee builds successfully with cliff fee numerator
`0`, strictly below `MIN_FEE_NUMERATOR`. -/
theorem getBaseFeeParams_flat_zero_cex :
    getBaseFeeParams ⟨.FeeSchedulerLinear, none, some ⟨0, 0, 0, 0⟩⟩ 6 .Slot 0 =
        .ok ⟨0, 0, 0, 0, .FeeSchedulerLinear⟩ ∧
      ¬ MIN_FEE_NUMERATOR ≤ (0 : Int) := by
  constructor
  · decide
  · decide

/-- C4 (amended): a `BaseFee` built by `getBaseFeeParams` has its cliff fee
numerator within `[MIN_FEE_NUMERATOR, MAX_FEE_NUMERATOR]` in the rate-limiter
variant; in the scheduler variants only the upper bound holds, and only on the
decaying path (distinct starting and ending fees) — the flat path checks no
bounds. -/
theorem getBaseFeeParams_cliff_bounds (p : BaseFeeParamsInput)
    (tokenQuoteDecimal : Nat) (activationType : ActivationType)
    (expReductionFactor : Int) (bf : BaseFee)
    (h : getBaseFeeParams p tokenQuoteDecimal activationType expReductionFactor = .ok bf) :
    (p.baseFeeMode = .RateLimiter →
      MIN_FEE_NUMERATOR ≤ bf.cliffFeeNumerator ∧
        bf.cliffFeeNumerator ≤ MAX_FEE_NUMERATOR) ∧
    (∀ f, p.baseFeeMode ≠ .RateLimiter → p.feeSchedulerParam = some f →
      f.startingFeeBps ≠ f.endingFeeBps →
      bf.cliffFeeNumerator ≤ MAX_FEE_NUMERATOR) := by
  constructor
  · intro hmode
    unfold getBaseFeeParams at h
    rw [if_pos hmode] at h
    match hr : p.rateLimiterParam with
    | none => rw [hr] at h; simp at h
    | some r =>
        rw [hr] at h
        exact getRateLimiterParams_ok_bounds r.baseFeeBps r.feeIncrementBps
          r.referenceAmount r.maxLimiterDuration tokenQuoteDecimal activationType bf h
  · intro f hmode hf hne
    unfold getBaseFeeParams at h
    rw [if_neg hmode, hf] at h
    exact getFeeSchedulerParams_ok_le_max f.startingFeeBps f.endingFeeBps
      p.baseFeeMode f.numberOfPeriod f.totalDuration expReductionFactor bf hne h

/-- C4 witness: a rate-limiter configuration with a 100 bps base fee builds
successfully and its cliff fee numerator `10000000` lies within the protocol
bounds. -/
theorem getBaseFeeParams_cliff_bounds_witness :
    getBaseFeeParams ⟨.RateLimiter, some ⟨100, 10, 1, 100⟩, none⟩ 6 .Slot 0 =
        .ok ⟨10000000, 10, 100, 1000000, .RateLimiter⟩ ∧
      MIN_FEE_NUMERATOR ≤ (10000000 : Int) ∧ (10000000 : Int) ≤ MAX_FEE_NUMERATOR := by
  have h : getBaseFeeParams ⟨.RateLimiter, some ⟨100, 10, 1, 100⟩, none⟩ 6 .Slot 0 =
      .ok ⟨10000000, 10, 100, 1000000, .RateLimiter⟩ := by
    norm_num [getBaseFeeParams, getRateLimiterParams, convertToLamports,
      fromDecimalToBN, bpsToFeeNumerator_eq, MAX_FEE_BPS, FEE_DENOMINATOR,
      MIN_FEE_NUMERATOR, MAX_FEE_NUMERATOR, MAX_RATE_LIMITER_DURATION_IN_SLOTS]
    decide
  exact ⟨h, (getBaseFeeParams_cliff_bounds _ 6 .Slot 0 _ h).1 rfl⟩

/-- C7: the dynamic-fee parameters bound the volatility surcharge to at most
20% of the base fee: `variableFeeControl * (maxVolatilityAccumulator *
binStep)^2` never exceeds the 20% cap `maxDynamicFeeNumerator` multiplied by
the documented scale-down factor `100000000000`. -/
theorem getDynamicFeeParams_twenty_percent_cap (baseFeeBps maxPriceChangeBps : Int)
    (hbps : 0 ≤ baseFeeBps) (p : DynamicFeeParameters)
    (h : getDynamicFeeParams baseFeeBps maxPriceChangeBps = .ok p) :
    p.variableFeeControl * (p.maxVolatilityAccumulator * BIN_STEP_BPS_DEFAULT) ^ 2 ≤
      Int.tdiv (bpsToFeeNumerator baseFeeBps * 20) 100 * 100000000000 := by
  simp only [getDynamicFeeParams] at h
  split_ifs at h with h1 h2
  all_goals simp only [Except.ok.injEq] at h
  subst h
  simp only
  set mva : Int :=
    Int.tdiv (sqrtMulQ64 ((maxPriceChangeBps : Rat) / (BASIS_POINT_MAX : Rat) + 1) - ONE_Q64)
      BIN_STEP_BPS_U128_DEFAULT * 2 * BASIS_POINT_MAX with hmva
  set S : Int := (mva * BIN_STEP_BPS_DEFAULT) ^ 2 with hS
  set M : Int := Int.tdiv (bpsToFeeNumerator baseFeeBps * 20) 100 with hM
  have hS0 : 0 < S := lt_of_le_of_ne (sq_nonneg _) (Ne.symm h2)
  have hM0 : 0 ≤ M := by
    rw [hM, bpsToFeeNumerator_eq]
    exact Int.tdiv_nonneg (by positivity) (by norm_num)
  rcases le_or_lt 0 (M * 100000000000 - 99999999999) with hv | hv
  · calc Int.tdiv (M * 100000000000 - 99999999999) S * S
        ≤ M * 100000000000 - 99999999999 := by
          rw [Int.tdiv_eq_ediv hv hS0.le]
          exact Int.ediv_mul_le _ hS0.ne'
      _ ≤ M * 100000000000 := by omega
  · have hMzero : M = 0 := by nlinarith
    have hneg : Int.tdiv (M * 100000000000 - 99999999999) S ≤ 0 := by
      rw [hMzero]
      have h9 : (0 : Int) ≤ Int.tdiv 99999999999 S := Int.tdiv_nonneg (by norm_num) hS0.le
      have hrw : ((0 : Int) * 100000000000 - 99999999999) = -(99999999999 : Int) := by norm_num
      rw [hrw, Int.neg_tdiv]
      omega
    calc Int.tdiv (M * 100000000000 - 99999999999) S * S ≤ 0 :=
        mul_nonpos_of_nonpos_of_nonneg hneg hS0.le
      _ ≤ M * 100000000000 := by rw [hMzero]; norm_num

/-- C7 witness: base fee 100 bps with the default 15% maximum price change;
the built parameters satisfy the 20% cap. -/
theorem getDynamicFeeParams_twenty_percent_cap_witness :
    (0 : Int) ≤ 100 ∧
      getDynamicFeeParams 100 1500 =
        .ok ⟨1, 1844674407370955, 10, 120, 5000, 14460000, 956⟩ ∧
      (956 : Int) * ((14460000 : Int) * BIN_STEP_BPS_DEFAULT) ^ 2 ≤
        Int.tdiv (bpsToFeeNumerator 100 * 20) 100 * 100000000000 := by
  have hsq : sqrtMulQ64 (((1500 : Int) : ℚ) / ((10000 : Int) : ℚ) + 1) =
      19781929176879570280 := by
    unfold sqrtMulQ64
    norm_num
    rw [show Int.toNat 391324721959079232982880798546533443174 =
          391324721959079232982880798546533443174 from rfl]
    norm_num
  have h : getDynamicFeeParams 100 1500 =
      .ok ⟨1, 1844674407370955, 10, 120, 5000, 14460000, 956⟩ := by
    simp only [getDynamicFeeParams, MAX_PRICE_CHANGE_BPS_DEFAULT, BASIS_POINT_MAX,
      ONE_Q64, BIN_STEP_BPS_U128_DEFAULT, BIN_STEP_BPS_DEFAULT,
      DYNAMIC_FEE_FILTER_PERIOD_DEFAULT, DYNAMIC_FEE_DECAY_PERIOD_DEFAULT,
      DYNAMIC_FEE_REDUCTION_FACTOR_DEFAULT]
    rw [hsq]
    decide
  exact ⟨by norm_num, h,
    getDynamicFeeParams_twenty_percent_cap 100 1500 (by norm_num) _ h⟩

/-- C10: a successful `getLockedVestingParams` build loses no token units to
per-period rounding: applying `getTotalVestingAmount` to the result recovers
exactly the requested total converted to lamports,
`totalLockedVestingAmount * 10 ^ tokenBaseDecimal`. -/
theorem getLockedVestingParams_total (totalLockedVestingAmount numberOfVestingPeriod
    cliffUnlockAmount totalVestingDuration cliffDurationFromMigrationTime : Int)
    (tokenBaseDecimal : Nat) (p : LockedVestingParameters)
    (h : getLockedVestingParams totalLockedVestingAmount numberOfVestingPeriod
      cliffUnlockAmount totalVestingDuration cliffDurationFromMigrationTime
      tokenBaseDecimal = .ok p) :
    getTotalVestingAmount p = totalLockedVestingAmount * 10 ^ tokenBaseDecimal := by
  simp only [getLockedVestingParams] at h
  split_ifs at h with h1 h2 h3 h4 h5
  all_goals simp only [Except.ok.injEq] at h
  · subst h
    simp [getTotalVestingAmount, h1]
  · subst h
    simp only [getTotalVestingAmount]
    rw [show ((totalLockedVestingAmount : ℚ) - 1) =
          ((totalLockedVestingAmount - 1 : ℤ) : ℚ) by push_cast; ring,
        show (1 : ℚ) = ((1 : ℤ) : ℚ) by norm_num,
        convertToLamports_intCast, convertToLamports_intCast]
    ring
  · subst h
    simp only [getTotalVestingAmount, convertToLamports_intCast]
    ring

/-- C10 witness: 100 tokens vested over 7 periods with a 10-token cliff at six
decimals; the per-period amount rounds down to 12 tokens and the cliff absorbs
the remainder, so the total is exactly `100 * 10 ^ 6` lamports. -/
theorem getLockedVestingParams_total_witness :
    getLockedVestingParams 100 7 10 700 0 6 =
        .ok ⟨12000000, 0, 100, 7, 16000000⟩ ∧
      getTotalVestingAmount ⟨12000000, 0, 100, 7, 16000000⟩ = 100 * 10 ^ 6 := by
  have h : getLockedVestingParams 100 7 10 700 0 6 =
      .ok ⟨12000000, 0, 100, 7, 16000000⟩ := by
    norm_num [getLockedVestingParams, convertToLamports, fromDecimalToBN]
    decide
  exact ⟨h, getLockedVestingParams_total 100 7 10 700 0 6 _ h⟩

/-- C9: `getMigratedPoolFeeParams` returns the default fee-split record
`⟨0, 0, 0⟩` for every migration-option, fee-option combination except
`MET_DAMM_V2` with `Customizable`, where it returns the caller-supplied
`migratedPoolFee` unchanged; a non-default `migratedPoolFee` supplied with any
other combination is ignored, not rejected. -/
theorem getMigratedPoolFeeParams_spec (migrationOption : MigrationOption)
    (migrationFeeOption : MigrationFeeOption)
    (migratedPoolFee : Option MigratedPoolFee) :
    getMigratedPoolFeeParams migrationOption migrationFeeOption migratedPoolFee =
      if migrationOption = .MET_DAMM_V2 ∧ migrationFeeOption = .Customizable
      then migratedPoolFee
      else some ⟨0, 0, 0⟩ := by
  cases migrationOption <;> cases migrationFeeOption <;>
    simp [getMigratedPoolFeeParams]


/-- C1 (amended): `buildCurveWithTwoSegments`, `buildCurveWithMidPrice` and
`buildCurveWithLiquidityWeights` end with a verification pass that
reconstructs the total supply via `getTotalSupplyFromCurve` and fails exactly
when the reconstructed supply exceeds the declared total supply by at least
the declared leftover; `buildCurve` also reconstructs the supply but performs
no such check — it absorbs the difference into a final segment and returns a
configuration. -/
theorem leftover_verification_pass
    (totalSupply migrationQuoteThresholdInLamport sqrtStartPrice : Int)
    (curve : List LiquidityDistributionParameters)
    (lockedVesting : LockedVestingParameters) (migrationOption : MigrationOption)
    (totalLeftover : Int) (migrationFeePercent : Rat) (migrateSqrtPrice : Int)
    (totalDynamicSupply : Int)
    (h : getTotalSupplyFromCurve migrationQuoteThresholdInLamport sqrtStartPrice
      curve lockedVesting migrationOption totalLeftover migrationFeePercent =
      .ok totalDynamicSupply) :
    (buildCurveWithTwoSegmentsFinalize totalSupply migrationQuoteThresholdInLamport
        sqrtStartPrice curve lockedVesting migrationOption totalLeftover
        migrationFeePercent =
        .error "leftOverDelta must be less than totalLeftover" ↔
      (totalDynamicSupply > totalSupply ∧
        ¬ (totalDynamicSupply - totalSupply < totalLeftover))) ∧
    (buildCurveWithMidPriceFinalize totalSupply migrationQuoteThresholdInLamport
        sqrtStartPrice curve lockedVesting migrationOption totalLeftover
        migrationFeePercent =
        .error "leftOverDelta must be less than totalLeftover" ↔
      (totalDynamicSupply > totalSupply ∧
        ¬ (totalDynamicSupply - totalSupply < totalLeftover))) ∧
    (buildCurveWithLiquidityWeightsFinalize totalSupply migrationQuoteThresholdInLamport
        sqrtStartPrice curve lockedVesting migrationOption totalLeftover
        migrationFeePercent =
        .error "leftOverDelta must be less than totalLeftover" ↔
      (totalDynamicSupply > totalSupply ∧
        ¬ (totalDynamicSupply - totalSupply < totalLeftover))) ∧
    (buildCurveFinalize totalSupply migrationQuoteThresholdInLamport sqrtStartPrice
        curve lockedVesting migrationOption totalLeftover migrationFeePercent
        migrateSqrtPrice).isOk = true := by
  unfold buildCurveWithTwoSegmentsFinalize buildCurveWithMidPriceFinalize
    buildCurveWithLiquidityWeightsFinalize buildCurveFinalize
  rw [h]
  refine ⟨?_, ?_, ?_, ?_⟩
  · by_cases hgt : totalDynamicSupply > totalSupply
    · by_cases hlt : totalDynamicSupply - totalSupply < totalLeftover
      · simp [hgt, hlt]
      · simp [hgt, hlt]
    · simp [hgt]
  · by_cases hgt : totalDynamicSupply > totalSupply
    · by_cases hlt : totalDynamicSupply - totalSupply < totalLeftover
      · simp [hgt, hlt]
      · simp [hgt, hlt]
    · simp [hgt]
  · by_cases hgt : totalDynamicSupply > totalSupply
    · by_cases hlt : totalDynamicSupply - totalSupply < totalLeftover
      · simp [hgt, hlt]
      · simp [hgt, hlt]
    · simp [hgt]
  · by_cases hL : getInitialLiquidityFromDeltaBase (totalSupply - totalDynamicSupply)
        MAX_SQRT_PRICE migrateSqrtPrice = 0
    · simp [hL, Except.isOk, Except.toBool]
    · simp [hL, Except.isOk, Except.toBool]

/-- C1 counterexample: a concrete single-segment curve whose reconstructed
supply exceeds the declared total supply by exactly the declared leftover (so
the excess is not strictly below it); the tail of `buildCurve` still returns a
configuration (with a solved negative final segment) instead of failing. -/
theorem buildCurve_no_leftover_check_cex :
    getTotalSupplyFromCurve 9223372036854775808 18446744073709551616
        [⟨36893488147419103232, 340282366920938463463374607431768211456⟩]
        ⟨0, 0, 0, 0, 0⟩ .MET_DAMM 5 0 = .ok 11785419824869991316 ∧
      (11785419824869991316 : Int) > 11785419824869991311 ∧
      ¬ ((11785419824869991316 : Int) - 11785419824869991311 < 5) ∧
      buildCurveFinalize 11785419824869991311 9223372036854775808
          18446744073709551616
          [⟨36893488147419103232, 340282366920938463463374607431768211456⟩]
          ⟨0, 0, 0, 0, 0⟩ .MET_DAMM 5 0 27670116110564327424 =
        .ok (18446744073709551616,
          [⟨36893488147419103232, 340282366920938463463374607431768211456⟩,
            ⟨79226673521066979257578248091, -138350580601140927317⟩]) := by
  have hfd : fromDecimalToBN (getMigrationQuoteAmountFromMigrationQuoteThreshold
      ((9223372036854775808 : Int) : ℚ) 0) = 9223372036854775808 := by
    unfold getMigrationQuoteAmountFromMigrationQuoteThreshold fromDecimalToBN
    norm_num
  refine ⟨?_, by decide, by decide, ?_⟩
  · simp only [getTotalSupplyFromCurve, hfd]
    decide
  · simp only [buildCurveFinalize, getTotalSupplyFromCurve, hfd]
    decide

/-- C1 witness: on the same concrete curve, the three checking builders fail
exactly under the out-of-tolerance condition and the `buildCurve` tail still
succeeds. -/
theorem leftover_verification_pass_witness :
    getTotalSupplyFromCurve 9223372036854775808 18446744073709551616
        [⟨36893488147419103232, 340282366920938463463374607431768211456⟩]
        ⟨0, 0, 0, 0, 0⟩ .MET_DAMM 5 0 = .ok 11785419824869991316 ∧
      ((buildCurveWithTwoSegmentsFinalize 11785419824869991311 9223372036854775808
          18446744073709551616
          [⟨36893488147419103232, 340282366920938463463374607431768211456⟩]
          ⟨0, 0, 0, 0, 0⟩ .MET_DAMM 5 0 =
          .error "leftOverDelta must be less than totalLeftover" ↔
        ((11785419824869991316 : Int) > 11785419824869991311 ∧
          ¬ ((11785419824869991316 : Int) - 11785419824869991311 < 5))) ∧
      (buildCurveWithMidPriceFinalize 11785419824869991311 9223372036854775808
          18446744073709551616
          [⟨36893488147419103232, 340282366920938463463374607431768211456⟩]
          ⟨0, 0, 0, 0, 0⟩ .MET_DAMM 5 0 =
          .error "leftOverDelta must be less than totalLeftover" ↔
        ((11785419824869991316 : Int) > 11785419824869991311 ∧
          ¬ ((11785419824869991316 : Int) - 11785419824869991311 < 5))) ∧
      (buildCurveWithLiquidityWeightsFinalize 11785419824869991311 9223372036854775808
          18446744073709551616
          [⟨36893488147419103232, 340282366920938463463374607431768211456⟩]
          ⟨0, 0, 0, 0, 0⟩ .MET_DAMM 5 0 =
          .error "leftOverDelta must be less than totalLeftover" ↔
        ((11785419824869991316 : Int) > 11785419824869991311 ∧
          ¬ ((11785419824869991316 : Int) - 11785419824869991311 < 5))) ∧
      (buildCurveFinalize 11785419824869991311 9223372036854775808
          18446744073709551616
          [⟨36893488147419103232, 340282366920938463463374607431768211456⟩]
          ⟨0, 0, 0, 0, 0⟩ .MET_DAMM 5 0 27670116110564327424).isOk = true) := by
  have hfd : fromDecimalToBN (getMigrationQuoteAmountFromMigrationQuoteThreshold
      ((9223372036854775808 : Int) : ℚ) 0) = 9223372036854775808 := by
    unfold getMigrationQuoteAmountFromMigrationQuoteThreshold fromDecimalToBN
    norm_num
  have h : getTotalSupplyFromCurve 9223372036854775808 18446744073709551616
      [⟨36893488147419103232, 340282366920938463463374607431768211456⟩]
      ⟨0, 0, 0, 0, 0⟩ .MET_DAMM 5 0 = .ok 11785419824869991316 := by
    simp only [getTotalSupplyFromCurve, hfd]
    decide
  exact ⟨h, leftover_verification_pass 11785419824869991311 9223372036854775808
    18446744073709551616
    [⟨36893488147419103232, 340282366920938463463374607431768211456⟩]
    ⟨0, 0, 0, 0, 0⟩ .MET_DAMM 5 0 27670116110564327424 11785419824869991316 h⟩

/-- C8: whenever the declared total supply exceeds the supply reconstructed
from the candidate curve, the tail of `buildCurve` appends a final segment
whose upper sqrt price is `MAX_SQRT_PRICE` and whose liquidity is solved from
the remainder via `getInitialLiquidityFromDeltaBase`; when the solved
liquidity is zero, no segment is appended. -/
theorem buildCurve_final_segment
    (totalSupply migrationQuoteThresholdInLamport sqrtStartPrice : Int)
    (curve : List LiquidityDistributionParameters)
    (lockedVesting : LockedVestingParameters) (migrationOption : MigrationOption)
    (totalLeftover : Int) (migrationFeePercent : Rat) (migrateSqrtPrice : Int)
    (totalDynamicSupply : Int)
    (h : getTotalSupplyFromCurve migrationQuoteThresholdInLamport sqrtStartPrice
      curve lockedVesting migrationOption totalLeftover migrationFeePercent =
      .ok totalDynamicSupply)
    (hexceed : totalDynamicSupply < totalSupply) :
    buildCurveFinalize totalSupply migrationQuoteThresholdInLamport sqrtStartPrice
        curve lockedVesting migrationOption totalLeftover migrationFeePercent
        migrateSqrtPrice =
      .ok (sqrtStartPrice,
        if getInitialLiquidityFromDeltaBase (totalSupply - totalDynamicSupply)
            MAX_SQRT_PRICE migrateSqrtPrice = 0 then curve
        else curve ++ [⟨MAX_SQRT_PRICE,
          getInitialLiquidityFromDeltaBase (totalSupply - totalDynamicSupply)
            MAX_SQRT_PRICE migrateSqrtPrice⟩]) := by
  unfold buildCurveFinalize
  rw [h]
  by_cases hL : getInitialLiquidityFromDeltaBase (totalSupply - totalDynamicSupply)
      MAX_SQRT_PRICE migrateSqrtPrice = 0
  · simp [hL]
  · simp [hL]

/-- C8 witness: with a declared supply 1000 units above the reconstructed one,
the appended final segment reaches `MAX_SQRT_PRICE` with the solved liquidity. -/
theorem buildCurve_final_segment_witness :
    getTotalSupplyFromCurve 9223372036854775808 18446744073709551616
        [⟨36893488147419103232, 340282366920938463463374607431768211456⟩]
        ⟨0, 0, 0, 0, 0⟩ .MET_DAMM 5 0 = .ok 11785419824869991316 ∧
      (11785419824869991316 : Int) < 11785419824869992316 ∧
      buildCurveFinalize 11785419824869992316 9223372036854775808
          18446744073709551616
          [⟨36893488147419103232, 340282366920938463463374607431768211456⟩]
          ⟨0, 0, 0, 0, 0⟩ .MET_DAMM 5 0 27670116110564327424 =
        .ok (18446744073709551616,
          if getInitialLiquidityFromDeltaBase (11785419824869992316 - 11785419824869991316)
              MAX_SQRT_PRICE 27670116110564327424 = 0 then
            [⟨36893488147419103232, 340282366920938463463374607431768211456⟩]
          else
            [⟨36893488147419103232, 340282366920938463463374607431768211456⟩] ++
              [⟨MAX_SQRT_PRICE,
                getInitialLiquidityFromDeltaBase
                  (11785419824869992316 - 11785419824869991316)
                  MAX_SQRT_PRICE 27670116110564327424⟩]) := by
  have hfd : fromDecimalToBN (getMigrationQuoteAmountFromMigrationQuoteThreshold
      ((9223372036854775808 : Int) : ℚ) 0) = 9223372036854775808 := by
    unfold getMigrationQuoteAmountFromMigrationQuoteThreshold fromDecimalToBN
    norm_num
  have h : getTotalSupplyFromCurve 9223372036854775808 18446744073709551616
      [⟨36893488147419103232, 340282366920938463463374607431768211456⟩]
      ⟨0, 0, 0, 0, 0⟩ .MET_DAMM 5 0 = .ok 11785419824869991316 := by
    simp only [getTotalSupplyFromCurve, hfd]
    decide
  exact ⟨h, by decide, buildCurve_final_segment 11785419824869992316
    9223372036854775808 18446744073709551616
    [⟨36893488147419103232, 340282366920938463463374607431768211456⟩]
    ⟨0, 0, 0, 0, 0⟩ .MET_DAMM 5 0 27670116110564327424 11785419824869991316 h
    (by decide)⟩


end DBC
